import Mathlib

/-!
A verification development for the session-token authentication core of the
web-starter backend: the password hashing policy
(`src/core/security/password.py`), the session lifecycle
(`src/models/session.py`, `src/db/repositories/session.py`,
`src/services/session.py`), the user service (`src/services/user.py`,
`src/db/repositories/user.py`, `src/models/mixins.py`) and the generic
repository's dynamic field resolution (`src/db/repositories/base.py`).

Conventions of the embedding:
* Time is a `Nat` (seconds since an arbitrary epoch, UTC); every call of
  `datetime.now(UTC)` in the code becomes an explicit time argument.
* Database tables are Lean lists; SQL `WHERE` clauses become `List.filter`.
* Code paths that can raise return `Except PyError`; in particular
  SQLAlchemy's `scalar_one_or_none` raises when more than one row matches.
* Randomness (session tokens, password salts) is externalized into
  arguments; distinct random draws are modelled as distinct argument values.
* The Argon2 passlib `CryptContext` is third-party code that is not part of
  the repository sources; it is modelled from the spec (see the
  definitions marked "Modelled from the spec").
-/

/-! ## Errors raised by the embedded code paths -/

/-- The failure modes of the embedded code paths: `valueError` is Python's
`ValueError` (used by `BaseRepository.__get_column`), `multipleResults` is
SQLAlchemy's `MultipleResultsFound` from `scalar_one_or_none`,
`argumentError` is SQLAlchemy's `ArgumentError` (a non-SQL object in a query
clause), `recordNotFound` is the service-layer `RecordNotFoundException`. -/
inductive PyError where
  | valueError (msg : String)
  | multipleResults
  | argumentError
  | recordNotFound (msg : String)
deriving DecidableEq

/-- SQLAlchemy `Result.scalar_one_or_none`: `none` on zero rows, the row on
exactly one, raises `MultipleResultsFound` on more than one. -/
def scalarOneOrNone {α : Type} : List α → Except PyError (Option α)
  | [] => .ok none
  | [x] => .ok (some x)
  | _ :: _ :: _ => .error .multipleResults

/-- Decidable equality of embedded call results. -/
instance exceptDecEq {ε α : Type} [DecidableEq ε] [DecidableEq α] :
    DecidableEq (Except ε α) := fun x y =>
  match x, y with
  | .error a, .error b =>
    if h : a = b then isTrue (by rw [h])
    else isFalse (by intro e; cases e; exact h rfl)
  | .error _, .ok _ => isFalse (by intro e; exact Except.noConfusion e)
  | .ok _, .error _ => isFalse (by intro e; exact Except.noConfusion e)
  | .ok a, .ok b =>
    if h : a = b then isTrue (by rw [h])
    else isFalse (by intro e; cases e; exact h rfl)

/-! ## Character and digit utilities (for the PHC-format hash strings) -/

/-- The decimal digit character for `d % 10`. -/
def digitToChar (d : Nat) : Char :=
  match d with
  | 0 => '0' | 1 => '1' | 2 => '2' | 3 => '3' | 4 => '4'
  | 5 => '5' | 6 => '6' | 7 => '7' | 8 => '8' | _ => '9'

/-- The numeric value of a decimal digit character (0 for non-digits). -/
def digitVal (c : Char) : Nat :=
  match c with
  | '0' => 0 | '1' => 1 | '2' => 2 | '3' => 3 | '4' => 4
  | '5' => 5 | '6' => 6 | '7' => 7 | '8' => 8 | '9' => 9
  | _ => 0

/-- Whether a character is a decimal digit. -/
def isDigitCh (c : Char) : Bool :=
  match c with
  | '0' => true | '1' => true | '2' => true | '3' => true | '4' => true
  | '5' => true | '6' => true | '7' => true | '8' => true | '9' => true
  | _ => false

/-- Decimal digits of `n`, least significant first, with explicit fuel
(structural recursion; `natToChars` supplies enough fuel). -/
def natToCharsAux : Nat → Nat → List Char
  | _, 0 => []
  | 0, _ + 1 => []
  | f + 1, n + 1 => digitToChar ((n + 1) % 10) :: natToCharsAux f ((n + 1) / 10)

/-- Decimal rendering of a natural number, most significant digit first. -/
def natToChars (n : Nat) : List Char :=
  if n = 0 then ['0'] else (natToCharsAux n n).reverse

/-- Read a natural number from a non-empty all-digit character list
(most significant digit first); `none` otherwise. -/
def readNatFromChars (cs : List Char) : Option Nat :=
  if cs ≠ [] ∧ cs.all isDigitCh = true then
    some (cs.foldl (fun a c => a * 10 + digitVal c) 0)
  else none

/-- Split a character list on a delimiter character; always returns at least
one (possibly empty) chunk, like Python's `str.split`. -/
def splitOnChar (d : Char) : List Char → List (List Char)
  | [] => [[]]
  | c :: cs =>
    if c = d then [] :: splitOnChar d cs
    else
      match splitOnChar d cs with
      | [] => [[c]]
      | h :: t => (c :: h) :: t

/-- Escape a character list so that the result never contains `'$'`
(the PHC field delimiter): `'$'` becomes `"ED"` and the escape character
`'E'` becomes `"EE"`. -/
def escChars : List Char → List Char
  | [] => []
  | c :: cs =>
    if c = '$' then 'E' :: 'D' :: escChars cs
    else if c = 'E' then 'E' :: 'E' :: escChars cs
    else c :: escChars cs

/-- Left inverse of `escChars`: `"ED"` decodes to `'$'`, `"EE"` to `'E'`,
anything else is copied. -/
def unescChars : List Char → List Char
  | [] => []
  | c :: cs =>
    if c = 'E' then
      match cs with
      | [] => []
      | d :: cs2 => (if d = 'D' then '$' else 'E') :: unescChars cs2
    else c :: unescChars cs

/-! ## Password hashing (PasswordHasher, `src/core/security/password.py`)

The wrapper class `PasswordHasher` is embedded faithfully from the source;
the Argon2 `CryptContext` it delegates to is external library code and is
modelled from the spec as a self-describing PHC-style hash string
`$argon2id$v=19$m=..,t=..,p=..$<salt>$<digest>` whose digest is an
abstract one-way value keyed by the password and the salt (the model's
digest is an injective encoding of the pair, which realizes the spec's
"returns true iff password matches"). -/

/-- The Argon2 cost parameters embedded in a hash string. -/
structure Argon2Params where
  time_cost : Nat
  memory_cost : Nat
  parallelism : Nat
deriving DecidableEq

/-- A parsed PHC hash: cost parameters, salt and digest. -/
structure PhcHash where
  params : Argon2Params
  salt : List Char
  digest : List Char
deriving DecidableEq

/-- Modelled from the spec: the digest is "keyed by a random
`salt_length`-byte salt" and determined by the password — an abstract
one-way value, modelled as an injective delimiter-free encoding of the
(password, salt) pair. -/
def argonDigest (pw salt : List Char) : List Char :=
  escChars pw ++ '|' :: escChars salt

/-- The `m=..,t=..,p=..` parameter chunk of a PHC hash string. -/
def paramChars (p : Argon2Params) : List Char :=
  'm' :: '=' :: natToChars p.memory_cost ++
    ',' :: 't' :: '=' :: natToChars p.time_cost ++
      ',' :: 'p' :: '=' :: natToChars p.parallelism

/-- The characters of the literal `argon2id` algorithm tag. -/
def tagChars : List Char := ['a', 'r', 'g', 'o', 'n', '2', 'i', 'd']

/-- The characters of the literal `v=19` version chunk. -/
def verChars : List Char := ['v', '=', '1', '9']

/-- Modelled from the spec: the "self-describing hash string encoding
algorithm identity and all cost parameters plus a random salt" produced by
the Argon2 context, in PHC format. -/
def phcFormatL (h : PhcHash) : List Char :=
  '$' :: (tagChars ++ '$' :: (verChars ++ '$' ::
    (paramChars h.params ++ '$' :: (h.salt ++ '$' :: h.digest))))

/-- Read the `m=..,t=..,p=..` chunk back into `Argon2Params`. -/
def readParams (cs : List Char) : Option Argon2Params :=
  match splitOnChar ',' cs with
  | [mc, tc, pc] =>
    match mc, tc, pc with
    | 'm' :: '=' :: mds, 't' :: '=' :: tds, 'p' :: '=' :: pds =>
      match readNatFromChars mds, readNatFromChars tds, readNatFromChars pds with
      | some mv, some tv, some pv =>
        some { time_cost := tv, memory_cost := mv, parallelism := pv }
      | _, _, _ => none
    | _, _, _ => none
  | _ => none

/-- Modelled from the spec: recognize a PHC hash string, recovering the
embedded cost parameters, salt and digest; `none` on any malformed input. -/
def phcRead (cs : List Char) : Option PhcHash :=
  match splitOnChar '$' cs with
  | [[], tag, ver, prm, salt, dgst] =>
    if tag = tagChars ∧ ver = verChars then
      match readParams prm with
      | some ps => some { params := ps, salt := salt, digest := dgst }
      | none => none
    else none
  | _ => none

/-- The configuration of a `PasswordHasher` (its five constructor
parameters, resolved). -/
structure HasherCfg where
  time_cost : Nat
  memory_cost : Nat
  parallelism : Nat
  hash_length : Nat
  salt_length : Nat
deriving DecidableEq

/-- Python `value or DEFAULT`: the default is used both for `None` and for a
falsy (zero) explicit value. -/
def orDefault (v : Option Nat) (dflt : Nat) : Nat :=
  match v with
  | none => dflt
  | some n => if n = 0 then dflt else n

/-- `PasswordHasher.__init__`: resolve the five optional parameters against
the class defaults (2, 102400, 8, 32, 16). -/
def mkPasswordHasher (time_cost memory_cost parallelism hash_length salt_length :
    Option Nat) : HasherCfg :=
  { time_cost := orDefault time_cost 2
    memory_cost := orDefault memory_cost 102400
    parallelism := orDefault parallelism 8
    hash_length := orDefault hash_length 32
    salt_length := orDefault salt_length 16 }

/-- The module-level `default_hasher = PasswordHasher()`. -/
def default_hasher : HasherCfg := mkPasswordHasher none none none none none

/-- The cost parameters a hasher configuration stamps into new hashes. -/
def HasherCfg.params (cfg : HasherCfg) : Argon2Params :=
  { time_cost := cfg.time_cost
    memory_cost := cfg.memory_cost
    parallelism := cfg.parallelism }

/-- `PasswordHasher.hash`: raises `ValueError` on an empty password,
otherwise returns the PHC hash string for the (externally drawn) salt. -/
def PasswordHasher.hash (cfg : HasherCfg) (password : String) (salt : String) :
    Except String String :=
  if password = "" then .error "Password cannot be empty"
  else .ok (String.mk (phcFormatL
    { params := cfg.params, salt := salt.data
      digest := argonDigest password.data salt.data }))

/-- `PasswordHasher.verify`: false for empty password or empty hash; then
delegates to the context inside `try/except` — a malformed hash (which makes
the context raise) and a digest mismatch both yield `false`. -/
def PasswordHasher.verify (_cfg : HasherCfg) (password hashed : String) : Bool :=
  if password = "" ∨ hashed = "" then false
  else
    match phcRead hashed.data with
    | none => false
    | some h => h.digest = argonDigest password.data h.salt

/-- Modelled from the spec: the context's `needs_update` is "true if the
hash's embedded cost parameters are weaker than the hasher's current
configured parameters, or the format is unrecognized". -/
def ctxNeedsUpdate (cfg : HasherCfg) (hashed : String) : Bool :=
  match phcRead hashed.data with
  | none => true
  | some h =>
    decide (h.params.time_cost < cfg.time_cost) ||
      decide (h.params.memory_cost < cfg.memory_cost) ||
        decide (h.params.parallelism < cfg.parallelism)

/-- `PasswordHasher.needs_update`: delegates to the context inside
`try/except Exception: return True`. -/
def PasswordHasher.needs_update (cfg : HasherCfg) (hashed : String) : Bool :=
  ctxNeedsUpdate cfg hashed

/-- Module-level `hash_password`: hash with the default hasher. -/
def hash_password (password : String) (salt : String) : Except String String :=
  PasswordHasher.hash default_hasher password salt

/-- Module-level `verify_password`: verify with the default hasher. -/
def verify_password (password hashed : String) : Bool :=
  PasswordHasher.verify default_hasher password hashed

/-! ## Data model (`src/models/user.py`, `src/models/session.py`,
`src/models/mixins.py`)

Identifiers (UUID v7) are modelled as `Nat`; timestamps as `Nat` seconds. -/

/-- The `users` table row: `UUIDMixin` id, authentication and profile
columns, `TimestampMixin` timestamps and the `SoftDeleteMixin` marker. -/
structure User where
  id : Nat
  email : String
  username : Option String
  hashed_password : String
  is_active : Bool
  is_superuser : Bool
  first_name : Option String
  last_name : Option String
  created_at : Nat
  updated_at : Nat
  deleted_at : Option Nat
deriving DecidableEq

/-- `SoftDeleteMixin.is_deleted`. -/
def User.is_deleted (u : User) : Bool := u.deleted_at.isSome

/-- `SoftDeleteMixin.soft_delete`: set `deleted_at` to the current time. -/
def User.soft_delete (u : User) (now : Nat) : User :=
  { u with deleted_at := some now }

/-- `SoftDeleteMixin.restore`: clear `deleted_at`. -/
def User.restore (u : User) : User := { u with deleted_at := none }

/-- The `sessions` table row: `UUIDMixin` id, the session columns and the
`TimestampMixin` timestamps. -/
structure Session where
  id : Nat
  user_id : Nat
  token : String
  expires_at : Nat
  revoked_at : Option Nat
  ip_address : Option String
  user_agent : Option String
  created_at : Nat
  updated_at : Nat
deriving DecidableEq

/-- `Session.is_expired`: `datetime.now(UTC) > self.expires_at`. -/
def Session.is_expired (s : Session) (now : Nat) : Bool :=
  decide (now > s.expires_at)

/-- `Session.is_revoked`: `self.revoked_at is not None`. -/
def Session.is_revoked (s : Session) : Bool := s.revoked_at.isSome

/-- `Session.is_valid`: not expired and not revoked. -/
def Session.is_valid (s : Session) (now : Nat) : Bool :=
  !s.is_expired now && !s.is_revoked

/-- `Session.revoke`: set `revoked_at` to the current time. -/
def Session.revoke (s : Session) (now : Nat) : Session :=
  { s with revoked_at := some now }

/-- `Session.create_expiration`: `datetime.now(UTC) + timedelta(hours=hours)`
(one hour is 3600 of the embedding's time units). -/
def Session.create_expiration (now : Nat) (hours : Nat := 24) : Nat :=
  now + hours * 3600

/-! ## Session repository (`src/db/repositories/session.py`) -/

/-- A stable insertion sort, used to model SQL `ORDER BY`: `le a b` means
`a` may be placed before `b`. -/
def insertSorted {α : Type} (le : α → α → Bool) (x : α) : List α → List α
  | [] => [x]
  | y :: ys => if le x y then x :: y :: ys else y :: insertSorted le x ys

/-- Sort a list with the given comparison (see `insertSorted`). -/
def sortWith {α : Type} (le : α → α → Bool) : List α → List α
  | [] => []
  | x :: xs => insertSorted le x (sortWith le xs)

/-- `SessionRepository.get_by_token`: `SELECT .. WHERE token = ..` followed
by `scalar_one_or_none`. -/
def SessionRepository.get_by_token (db : List Session) (token : String) :
    Except PyError (Option Session) :=
  scalarOneOrNone (db.filter (fun s => s.token == token))

/-- The `WHERE` clause of `get_user_sessions`: owned by the user, plus
`expires_at > now` unless expired sessions are included and
`revoked_at IS NULL` unless revoked sessions are included. -/
def userSessionsPred (now : Nat) (user_id : Nat)
    (include_expired include_revoked : Bool) (s : Session) : Bool :=
  s.user_id == user_id &&
    (include_expired || decide (s.expires_at > now)) &&
      (include_revoked || s.revoked_at.isNone)

/-- `SessionRepository.get_user_sessions`: filter as `userSessionsPred`,
ordered by `created_at` descending. -/
def SessionRepository.get_user_sessions (db : List Session) (now : Nat)
    (user_id : Nat) (include_expired : Bool := false)
    (include_revoked : Bool := false) : List Session :=
  sortWith (fun a b => decide (b.created_at ≤ a.created_at))
    (db.filter (userSessionsPred now user_id include_expired include_revoked))

/-- `SessionRepository.get_active_session_by_token`:
`WHERE token = .. AND expires_at > now AND revoked_at IS NULL` followed by
`scalar_one_or_none`. -/
def SessionRepository.get_active_session_by_token (db : List Session)
    (now : Nat) (token : String) : Except PyError (Option Session) :=
  scalarOneOrNone (db.filter (fun s =>
    s.token == token && decide (s.expires_at > now) && s.revoked_at.isNone))

/-- `SessionRepository.revoke_session`: look the session up by token; if
absent return `false`, otherwise mark it revoked (flush) and return
`true`. -/
def SessionRepository.revoke_session (db : List Session) (now : Nat)
    (token : String) : Except PyError (List Session × Bool) :=
  match SessionRepository.get_by_token db token with
  | .error e => .error e
  | .ok none => .ok (db, false)
  | .ok (some _) =>
    .ok (db.map (fun s => if s.token == token then s.revoke now else s), true)

/-- `SessionRepository.revoke_user_sessions`: revoke every currently active
session of the user; returns how many there were. -/
def SessionRepository.revoke_user_sessions (db : List Session) (now : Nat)
    (user_id : Nat) : List Session × Nat :=
  (db.map (fun s =>
      if userSessionsPred now user_id false false s then s.revoke now else s),
    (db.filter (userSessionsPred now user_id false false)).length)

/-- `SessionRepository.cleanup_expired_sessions`:
`DELETE .. WHERE expires_at < now OR revoked_at IS NOT NULL`; returns the
remaining table and the rowcount of deleted rows. -/
def SessionRepository.cleanup_expired_sessions (db : List Session)
    (now : Nat) : List Session × Nat :=
  (db.filter (fun s => !(decide (s.expires_at < now) || s.revoked_at.isSome)),
    (db.filter (fun s => decide (s.expires_at < now) || s.revoked_at.isSome)).length)

/-! ## Session service (`src/services/session.py`)

The service wraps the repository calls and commits; a commit makes the
already-flushed list state durable, so it is the identity on the embedded
state. -/

/-- `SessionService.create_session`: build a `Session` for the user with a
freshly drawn token (externalized as `tok`), expiry
`create_expiration(expires_hours)`, and persist it (`create` + commit).
`sid` is the generated UUID v7 primary key; both timestamps default to the
current time. -/
def SessionService.create_session (db : List Session) (now : Nat) (sid : Nat)
    (user : User) (tok : String) (expires_hours : Nat := 24)
    (ip_address : Option String := none) (user_agent : Option String := none) :
    List Session × Session :=
  let s : Session :=
    { id := sid, user_id := user.id, token := tok
      expires_at := Session.create_expiration now expires_hours
      revoked_at := none, ip_address := ip_address, user_agent := user_agent
      created_at := now, updated_at := now }
  (db ++ [s], s)

/-- `SessionService.get_active_session`: delegate to the repository. -/
def SessionService.get_active_session (db : List Session) (now : Nat)
    (token : String) : Except PyError (Option Session) :=
  SessionRepository.get_active_session_by_token db now token

/-- `SessionService.validate_session`: fetch the active session (the
database comparison reads the clock at `t_query`), then double-check
`is_valid` in memory (a second clock read, at `t_check`); `none` when the
session is absent or invalid. -/
def SessionService.validate_session (db : List Session) (t_query t_check : Nat)
    (token : String) : Except PyError (Option Session) :=
  match SessionService.get_active_session db t_query token with
  | .error e => .error e
  | .ok none => .ok none
  | .ok (some s) => .ok (if s.is_valid t_check then some s else none)

/-- `SessionService.revoke_session`: delegate to the repository and commit
when a session was revoked. -/
def SessionService.revoke_session (db : List Session) (now : Nat)
    (token : String) : Except PyError (List Session × Bool) :=
  SessionRepository.revoke_session db now token

/-- `SessionService.cleanup_expired_sessions`: delegate and commit. -/
def SessionService.cleanup_expired_sessions (db : List Session) (now : Nat) :
    List Session × Nat :=
  SessionRepository.cleanup_expired_sessions db now

/-! ## User repository and service (`src/db/repositories/user.py`,
`src/services/user.py`) -/

/-- `UserRepository.get_by_email`: `SELECT .. WHERE email = ..` followed by
`scalar_one_or_none`; note there is no `deleted_at` filter. -/
def UserRepository.get_by_email (users : List User) (email : String) :
    Except PyError (Option User) :=
  scalarOneOrNone (users.filter (fun u => u.email == email))

/-- `UserRepository.get_by_username`: `SELECT .. WHERE username = ..`. -/
def UserRepository.get_by_username (users : List User) (username : String) :
    Except PyError (Option User) :=
  scalarOneOrNone (users.filter (fun u => u.username == some username))

/-- `UserRepository.email_exists`. -/
def UserRepository.email_exists (users : List User) (email : String) :
    Except PyError Bool :=
  match scalarOneOrNone (users.filter (fun u => u.email == email)) with
  | .error e => .error e
  | .ok r => .ok r.isSome

/-- `UserService.authenticate`: look the user up by email; `none` when the
user is absent, when the password fails verification against the stored
hash, or when the account is inactive; otherwise the user. -/
def UserService.authenticate (users : List User) (email password : String) :
    Except PyError (Option User) :=
  match UserRepository.get_by_email users email with
  | .error e => .error e
  | .ok none => .ok none
  | .ok (some user) =>
    if !verify_password password user.hashed_password then .ok none
    else if !user.is_active then .ok none
    else .ok (some user)

/-- The combined persistent state the user-service mutators act on: the
`users` table and the `sessions` table. -/
structure AppState where
  users : List User
  sessions : List Session
deriving DecidableEq

/-- `BaseService.get_by_id_or_fail` for users: primary-key point lookup,
raising `RecordNotFoundException` when absent. -/
def UserService.get_by_id_or_fail (users : List User) (user_id : Nat) :
    Except PyError User :=
  match users.find? (fun u => u.id == user_id) with
  | none => .error (.recordNotFound
      ("User with id " ++ toString user_id ++ " not found"))
  | some u => .ok u

/-- Persist an in-place mutation of one user row (`BaseService.update`:
flush + refresh + commit; the `onupdate` hook stamps `updated_at`). -/
def putUser (st : AppState) (u2 : User) : AppState :=
  { st with users := st.users.map (fun x => if x.id == u2.id then u2 else x) }

/-- `UserService.deactivate_user`: fetch-or-fail, set `is_active = False`,
persist. Only the `users` table is touched. -/
def UserService.deactivate_user (st : AppState) (user_id : Nat) (now : Nat) :
    Except PyError (AppState × User) :=
  match UserService.get_by_id_or_fail st.users user_id with
  | .error e => .error e
  | .ok u =>
    let u2 := { u with is_active := false, updated_at := now }
    .ok (putUser st u2, u2)

/-- `UserService.activate_user`: fetch-or-fail, set `is_active = True`,
persist. -/
def UserService.activate_user (st : AppState) (user_id : Nat) (now : Nat) :
    Except PyError (AppState × User) :=
  match UserService.get_by_id_or_fail st.users user_id with
  | .error e => .error e
  | .ok u =>
    let u2 := { u with is_active := true, updated_at := now }
    .ok (putUser st u2, u2)

/-- `UserService.soft_delete_user`: fetch-or-fail, `soft_delete()` (set
`deleted_at`), persist. `is_active` is left as it was. -/
def UserService.soft_delete_user (st : AppState) (user_id : Nat) (now : Nat) :
    Except PyError (AppState × User) :=
  match UserService.get_by_id_or_fail st.users user_id with
  | .error e => .error e
  | .ok u =>
    let u2 := { u.soft_delete now with updated_at := now }
    .ok (putUser st u2, u2)

/-! ## Generic repository (`src/db/repositories/base.py`)

`BaseRepository` is generic over the mapped entity `E`. Dynamic field
resolution is `getattr(self.model, name, None)`: a mapped column and a
relationship are `InstrumentedAttribute`s, a Python property or method is
a plain (non-instrumented) class attribute, an unknown name yields the
`None` default. -/

/-- A database value, for dynamic equality filters and ordering. `userV`
stands for a `User` entity instance used in a relationship comparison
(SQLAlchemy compares it through the foreign key). -/
inductive Value where
  | natV (n : Nat)
  | strV (s : String)
  | optNatV (o : Option Nat)
  | optStrV (o : Option String)
  | boolV (b : Bool)
  | userV (user_id : Nat)
deriving DecidableEq

/-- What `getattr(model, name)` can yield on a mapped class: an
instrumented column attribute (with its value projection), an instrumented
relationship attribute (with the comparison SQLAlchemy compiles for it),
or a plain class attribute (property, method, ...). -/
inductive PyClassAttr (E : Type) where
  | column (get : E → Value)
  | relation (cmp : E → Value → Bool)
  | plain

/-- `isinstance(attr, InstrumentedAttribute)`: true for mapped columns and
relationships, false for plain class attributes. -/
def PyClassAttr.isInstrumented {E : Type} : PyClassAttr E → Bool
  | .column _ => true
  | .relation _ => true
  | .plain => false

/-- The `WHERE attr == value` predicate an instrumented attribute compiles
to (`.plain` never reaches a query: `__get_column` rejects it). -/
def PyClassAttr.whereEq {E : Type} : PyClassAttr E → Value → E → Bool
  | .column get, v, e => get e == v
  | .relation cmp, v, e => cmp e v
  | .plain, _, _ => false

/-- A mapped class: its `getattr` table. -/
structure ModelClass (E : Type) where
  getattr : String → Option (PyClassAttr E)

/-- `BaseRepository.__get_column`: `getattr(self.model, column, None)`,
raising `ValueError` when the result is `None` or not an
`InstrumentedAttribute`. -/
def BaseRepository.get_column {E : Type} (mc : ModelClass E) (column : String) :
    Except PyError (PyClassAttr E) :=
  match mc.getattr column with
  | some a =>
    if a.isInstrumented then .ok a
    else .error (.valueError ("Model does not have a column named " ++ column))
  | none => .error (.valueError ("Model does not have a column named " ++ column))

/-- A total ordering on `Value` used to model `ORDER BY` a column. -/
def Value.rank : Value → Nat
  | .natV _ => 0
  | .strV _ => 1
  | .optNatV _ => 2
  | .optStrV _ => 3
  | .boolV _ => 4
  | .userV _ => 5

/-- Comparison on `Value` (`ORDER BY` semantics; nulls first). -/
def valLe (a b : Value) : Bool :=
  match a, b with
  | .natV x, .natV y => decide (x ≤ y)
  | .strV x, .strV y => decide (x ≤ y)
  | .optNatV none, .optNatV _ => true
  | .optNatV (some _), .optNatV none => false
  | .optNatV (some x), .optNatV (some y) => decide (x ≤ y)
  | .optStrV none, .optStrV _ => true
  | .optStrV (some _), .optStrV none => false
  | .optStrV (some x), .optStrV (some y) => decide (x ≤ y)
  | .boolV x, .boolV y => !x || y
  | .userV x, .userV y => decide (x ≤ y)
  | x, y => decide (x.rank ≤ y.rank)

/-- The `order_by` argument of `get_multi`: a field name (resolved
dynamically) or an explicit ordering expression. -/
inductive OrderByArg (E : Type) where
  | name (s : String)
  | expr (le : E → E → Bool)

/-- `BaseRepository.get_multi`: offset pagination; a string `order_by` is
resolved with `getattr(self.model, order_by, None)` — an unknown name
yields `None` and `ORDER BY NULL` silently applies no ordering, while a
non-SQL class attribute makes the query compiler raise `ArgumentError`. -/
def BaseRepository.get_multi {E : Type} (mc : ModelClass E) (db : List E)
    (skip : Nat := 0) (limit : Nat := 100)
    (order_by : Option (OrderByArg E) := none) : Except PyError (List E) :=
  match order_by with
  | none => .ok ((db.drop skip).take limit)
  | some (.expr le) => .ok (((sortWith le db).drop skip).take limit)
  | some (.name s) =>
    match mc.getattr s with
    | none => .ok ((db.drop skip).take limit)
    | some (.column get) =>
      .ok (((sortWith (fun a b => valLe (get a) (get b)) db).drop skip).take limit)
    | some (.relation _) => .error .argumentError
    | some .plain => .error .argumentError

/-- `BaseRepository.get_by_field`: resolve the column (raising `ValueError`
for a non-column name), filter on equality, `scalar_one_or_none`. -/
def BaseRepository.get_by_field {E : Type} (mc : ModelClass E) (db : List E)
    (field : String) (value : Value) : Except PyError (Option E) :=
  match BaseRepository.get_column mc field with
  | .error e => .error e
  | .ok a => scalarOneOrNone (db.filter (a.whereEq value))

/-- `BaseRepository.get_multi_by_field`: resolve the column, filter on
equality, paginate. -/
def BaseRepository.get_multi_by_field {E : Type} (mc : ModelClass E)
    (db : List E) (field : String) (value : Value) (skip : Nat := 0)
    (limit : Nat := 100) : Except PyError (List E) :=
  match BaseRepository.get_column mc field with
  | .error e => .error e
  | .ok a => .ok (((db.filter (a.whereEq value)).drop skip).take limit)

/-- `BaseRepository.delete_by_field`: resolve the column, delete matching
rows, return the remaining table and the rowcount. -/
def BaseRepository.delete_by_field {E : Type} (mc : ModelClass E) (db : List E)
    (field : String) (value : Value) : Except PyError (List E × Nat) :=
  match BaseRepository.get_column mc field with
  | .error e => .error e
  | .ok a =>
    .ok (db.filter (fun e => !a.whereEq value e),
      (db.filter (a.whereEq value)).length)

/-- The `getattr` table of the mapped `Session` class: nine mapped columns,
the `user` relationship, and the plain attributes (properties and
methods declared on the class body). -/
def sessionClass : ModelClass Session :=
  { getattr := fun name =>
      match name with
      | "id" => some (.column (fun s => .natV s.id))
      | "user_id" => some (.column (fun s => .natV s.user_id))
      | "token" => some (.column (fun s => .strV s.token))
      | "expires_at" => some (.column (fun s => .natV s.expires_at))
      | "revoked_at" => some (.column (fun s => .optNatV s.revoked_at))
      | "ip_address" => some (.column (fun s => .optStrV s.ip_address))
      | "user_agent" => some (.column (fun s => .optStrV s.user_agent))
      | "created_at" => some (.column (fun s => .natV s.created_at))
      | "updated_at" => some (.column (fun s => .natV s.updated_at))
      | "user" => some (.relation (fun s v =>
          match v with
          | .userV uid => s.user_id == uid
          | _ => false))
      | "is_expired" => some .plain
      | "is_revoked" => some .plain
      | "is_valid" => some .plain
      | "revoke" => some .plain
      | "create_expiration" => some .plain
      | _ => none }

/-! ## Lemmas: decimal digits -/

/-- `digitToChar` inverts `digitVal` on digits. -/
theorem digitVal_digitToChar (d : Nat) (h : d < 10) :
    digitVal (digitToChar d) = d := by
  interval_cases d <;> rfl

/-- `digitToChar` always yields a digit character. -/
theorem isDigitCh_digitToChar (d : Nat) : isDigitCh (digitToChar d) = true := by
  unfold digitToChar
  split <;> rfl

/-- Digit characters are not PHC delimiters. -/
theorem isDigitCh_ne_delims {c : Char} (h : isDigitCh c = true) :
    c ≠ '$' ∧ c ≠ ',' := by
  constructor <;> rintro rfl <;> exact absurd h (by decide)

/-- Every character produced by `natToCharsAux` is a digit. -/
theorem isDigitCh_of_mem_natToCharsAux :
    ∀ f n c, c ∈ natToCharsAux f n → isDigitCh c = true := by
  intro f
  induction f with
  | zero =>
    intro n c h
    cases n <;> simp [natToCharsAux] at h
  | succ f ih =>
    intro n c h
    cases n with
    | zero => simp [natToCharsAux] at h
    | succ m =>
      simp only [natToCharsAux, List.mem_cons] at h
      rcases h with h | h
      · subst h; exact isDigitCh_digitToChar _
      · exact ih _ c h

/-- Every character of a decimal rendering is a digit. -/
theorem isDigitCh_of_mem_natToChars {n : Nat} {c : Char}
    (h : c ∈ natToChars n) : isDigitCh c = true := by
  unfold natToChars at h
  split at h
  · simp at h; subst h; rfl
  · rw [List.mem_reverse] at h
    exact isDigitCh_of_mem_natToCharsAux _ _ _ h

/-- Folding the digits of `natToCharsAux` back recovers the number,
provided the fuel is adequate. -/
theorem foldr_natToCharsAux :
    ∀ f n, n ≤ f →
      (natToCharsAux f n).foldr (fun c a => a * 10 + digitVal c) 0 = n := by
  intro f
  induction f with
  | zero =>
    intro n h
    interval_cases n
    rfl
  | succ f ih =>
    intro n h
    cases n with
    | zero => rfl
    | succ m =>
      have hdiv : (m + 1) / 10 ≤ f := by
        have h1 : (m + 1) / 10 ≤ m := by
          have := Nat.div_lt_self (Nat.succ_pos m) (by decide : 1 < 10)
          omega
        omega
      simp only [natToCharsAux, List.foldr_cons]
      rw [ih _ hdiv]
      rw [digitVal_digitToChar _ (Nat.mod_lt _ (by decide))]
      have := Nat.div_add_mod (m + 1) 10
      omega

/-- Reading back a decimal rendering recovers the number. -/
theorem readNat_natToChars (n : Nat) :
    readNatFromChars (natToChars n) = some n := by
  rcases Nat.eq_zero_or_pos n with h0 | hpos
  · subst h0; decide
  · have hne : natToChars n ≠ [] := by
      unfold natToChars
      rw [if_neg (by omega)]
      cases n with
      | zero => omega
      | succ m =>
        simp only [natToCharsAux]
        simp
    have hall : (natToChars n).all isDigitCh = true := by
      rw [List.all_eq_true]
      intro c hc
      exact isDigitCh_of_mem_natToChars hc
    unfold readNatFromChars
    rw [if_pos ⟨hne, hall⟩]
    unfold natToChars
    rw [if_neg (by omega)]
    rw [List.foldl_reverse]
    rw [foldr_natToCharsAux n n (Nat.le_refl n)]

/-! ## Lemmas: splitting and escaping -/

/-- `splitOnChar` never returns an empty chunk list. -/
theorem splitOnChar_ne_nil (d : Char) : ∀ cs, splitOnChar d cs ≠ [] := by
  intro cs
  induction cs with
  | nil => simp [splitOnChar]
  | cons c cs ih =>
    by_cases h : c = d
    · simp [splitOnChar, h]
    · simp only [splitOnChar, if_neg h]
      cases hs : splitOnChar d cs with
      | nil => simp
      | cons a t => simp

/-- Splitting a delimiter-free list yields a single chunk. -/
theorem splitOnChar_no_delim {d : Char} :
    ∀ {cs : List Char}, d ∉ cs → splitOnChar d cs = [cs] := by
  intro cs
  induction cs with
  | nil => intro _; rfl
  | cons c cs ih =>
    intro h
    have hc : c ≠ d := fun e => h (e ▸ List.mem_cons_self c cs)
    have hcs : d ∉ cs := fun m => h (List.mem_cons_of_mem c m)
    simp only [splitOnChar, if_neg hc, ih hcs]

/-- Splitting peels off a delimiter-free prefix up to the first
delimiter. -/
theorem splitOnChar_append {d : Char} :
    ∀ {xs : List Char}, d ∉ xs → ∀ ys,
      splitOnChar d (xs ++ d :: ys) = xs :: splitOnChar d ys := by
  intro xs
  induction xs with
  | nil =>
    intro _ ys
    simp [splitOnChar]
  | cons c cs ih =>
    intro h ys
    have hc : c ≠ d := fun e => h (e ▸ List.mem_cons_self c cs)
    have hcs : d ∉ cs := fun m => h (List.mem_cons_of_mem c m)
    simp only [List.cons_append, splitOnChar, if_neg hc, List.append_eq,
      ih hcs ys]

/-- Unfolding `unescChars` on a head that is not the escape character. -/
theorem unescChars_cons (c : Char) (cs : List Char) (h2 : ¬c = 'E') :
    unescChars (c :: cs) = c :: unescChars cs := by
  rw [unescChars.eq_def]
  split
  · rename_i heq
    exact (List.cons_ne_nil _ _ heq).elim
  · rename_i c2 cs2 heq
    injection heq with e1 e2
    subst e1; subst e2
    rw [if_neg h2]

/-- Unescaping inverts escaping. -/
theorem unesc_esc : ∀ cs, unescChars (escChars cs) = cs := by
  intro cs
  induction cs with
  | nil => rfl
  | cons c cs ih =>
    by_cases h1 : c = '$'
    · subst h1
      simp [escChars, unescChars, ih]
    · by_cases h2 : c = 'E'
      · subst h2
        simp [escChars, unescChars, ih]
      · rw [escChars, if_neg h1, if_neg h2, unescChars_cons c _ h2, ih]

/-- Escaping is injective. -/
theorem escChars_injective {a b : List Char} (h : escChars a = escChars b) :
    a = b := by
  have ha := unesc_esc a
  have hb := unesc_esc b
  rw [h] at ha
  rw [hb] at ha
  exact ha.symm

/-- Escaped text never contains the PHC delimiter. -/
theorem no_dollar_esc : ∀ cs, '$' ∉ escChars cs := by
  intro cs
  induction cs with
  | nil => simp [escChars]
  | cons c cs ih =>
    intro hmem
    by_cases h1 : c = '$'
    · subst h1
      simp only [escChars, if_pos rfl] at hmem
      rcases List.mem_cons.mp hmem with h | h
      · exact absurd h (by decide)
      rcases List.mem_cons.mp h with h | h
      · exact absurd h (by decide)
      · exact ih h
    · by_cases h2 : c = 'E'
      · subst h2
        simp only [escChars, if_neg (by decide : ¬('E' = '$')), if_pos rfl]
          at hmem
        rcases List.mem_cons.mp hmem with h | h
        · exact absurd h (by decide)
        rcases List.mem_cons.mp h with h | h
        · exact absurd h (by decide)
        · exact ih h
      · simp only [escChars, if_neg h1, if_neg h2] at hmem
        rcases List.mem_cons.mp hmem with h | h
        · exact h1 h.symm
        · exact ih h

/-- The digest chunk never contains the PHC delimiter. -/
theorem no_dollar_argonDigest (pw salt : List Char) :
    '$' ∉ argonDigest pw salt := by
  unfold argonDigest
  intro h
  rcases List.mem_append.mp h with h | h
  · exact no_dollar_esc pw h
  · rcases List.mem_cons.mp h with h | h
    · exact absurd h (by decide)
    · exact no_dollar_esc salt h

/-! ## Lemmas: PHC format / read roundtrip -/

/-- Decimal renderings never contain the comma separator. -/
theorem no_comma_natToChars {x : Nat} : ',' ∉ natToChars x := fun h =>
  absurd (isDigitCh_of_mem_natToChars h) (by decide)

/-- Decimal renderings never contain the PHC delimiter. -/
theorem no_dollar_natToChars {x : Nat} : '$' ∉ natToChars x := fun h =>
  absurd (isDigitCh_of_mem_natToChars h) (by decide)

/-- Reading back the parameter chunk recovers the parameters. -/
theorem readParams_paramChars (p : Argon2Params) :
    readParams (paramChars p) = some p := by
  obtain ⟨tc, mc, pc⟩ := p
  have hm : ',' ∉ 'm' :: '=' :: natToChars mc := by
    intro h
    rcases List.mem_cons.mp h with h | h
    · exact absurd h (by decide)
    rcases List.mem_cons.mp h with h | h
    · exact absurd h (by decide)
    · exact no_comma_natToChars h
  have ht : ',' ∉ 't' :: '=' :: natToChars tc := by
    intro h
    rcases List.mem_cons.mp h with h | h
    · exact absurd h (by decide)
    rcases List.mem_cons.mp h with h | h
    · exact absurd h (by decide)
    · exact no_comma_natToChars h
  have hp : ',' ∉ 'p' :: '=' :: natToChars pc := by
    intro h
    rcases List.mem_cons.mp h with h | h
    · exact absurd h (by decide)
    rcases List.mem_cons.mp h with h | h
    · exact absurd h (by decide)
    · exact no_comma_natToChars h
  have hsplit : splitOnChar ',' (paramChars ⟨tc, mc, pc⟩) =
      ['m' :: '=' :: natToChars mc, 't' :: '=' :: natToChars tc,
        'p' :: '=' :: natToChars pc] := by
    unfold paramChars
    rw [List.append_assoc,
      List.cons_append ',' ('t' :: '=' :: natToChars tc)
        (',' :: 'p' :: '=' :: natToChars pc),
      splitOnChar_append hm, splitOnChar_append ht, splitOnChar_no_delim hp]
  unfold readParams
  rw [hsplit]
  simp [readNat_natToChars]

/-- A leading delimiter opens an empty chunk. -/
theorem splitOnChar_cons_delim (d : Char) (cs : List Char) :
    splitOnChar d (d :: cs) = [] :: splitOnChar d cs := by
  simp [splitOnChar]

/-- A `k=<digits>` chunk never contains the PHC delimiter. -/
theorem no_dollar_kv (k : Char) (hk : k ≠ '$') (x : Nat) :
    '$' ∉ k :: '=' :: natToChars x := by
  intro hmem
  rcases List.mem_cons.mp hmem with h | h
  · exact hk h.symm
  rcases List.mem_cons.mp h with h | h
  · exact absurd h (by decide)
  · exact no_dollar_natToChars h

/-- The parameter chunk never contains the PHC delimiter. -/
theorem no_dollar_paramChars (p : Argon2Params) : '$' ∉ paramChars p := by
  unfold paramChars
  intro hmem
  rcases List.mem_append.mp hmem with hmem | hmem
  · rcases List.mem_append.mp hmem with hmem | hmem
    · exact no_dollar_kv 'm' (by decide) _ hmem
    · rcases List.mem_cons.mp hmem with h | h
      · exact absurd h (by decide)
      · exact no_dollar_kv 't' (by decide) _ h
  · rcases List.mem_cons.mp hmem with h | h
    · exact absurd h (by decide)
    · exact no_dollar_kv 'p' (by decide) _ h

/-- Reading back a formatted PHC hash recovers it, provided its salt and
digest avoid the delimiter. -/
theorem phcRead_phcFormatL (h : PhcHash) (hs : '$' ∉ h.salt)
    (hd : '$' ∉ h.digest) : phcRead (phcFormatL h) = some h := by
  obtain ⟨p, salt, dgst⟩ := h
  have hsplit : splitOnChar '$' (phcFormatL ⟨p, salt, dgst⟩) =
      [[], tagChars, verChars, paramChars p, salt, dgst] := by
    unfold phcFormatL
    rw [splitOnChar_cons_delim,
      splitOnChar_append (by decide : '$' ∉ tagChars),
      splitOnChar_append (by decide : '$' ∉ verChars),
      splitOnChar_append (no_dollar_paramChars p),
      splitOnChar_append hs,
      splitOnChar_no_delim hd]
  unfold phcRead
  rw [hsplit]
  simp [readParams_paramChars]

/-- The hash string `PasswordHasher.hash` produces reads back to its
parameters, salt and digest. -/
theorem phcRead_hash {cfg : HasherCfg} {pw salt h : String}
    (hpw : pw ≠ "") (hs : '$' ∉ salt.data)
    (hh : PasswordHasher.hash cfg pw salt = .ok h) :
    phcRead h.data =
      some ⟨cfg.params, salt.data, argonDigest pw.data salt.data⟩ := by
  unfold PasswordHasher.hash at hh
  rw [if_neg hpw] at hh
  injection hh with hh
  subst hh
  exact phcRead_phcFormatL _ hs (no_dollar_argonDigest _ _)

/-- A produced hash string is never empty (it starts with the PHC
delimiter). -/
theorem hash_ne_empty {cfg : HasherCfg} {pw salt h : String}
    (hpw : pw ≠ "") (hh : PasswordHasher.hash cfg pw salt = .ok h) :
    h ≠ "" := by
  unfold PasswordHasher.hash at hh
  rw [if_neg hpw] at hh
  injection hh with hh
  subst hh
  intro e
  have := congrArg String.data e
  simp [phcFormatL] at this

/-- The digest determines the password (for a fixed salt). -/
theorem argonDigest_inj {p1 p2 s : List Char}
    (h : argonDigest p1 s = argonDigest p2 s) : p1 = p2 := by
  unfold argonDigest at h
  exact escChars_injective (List.append_cancel_right h)

/-- Verification succeeds on a hash of the same password (any verifying
hasher configuration; the hash string is self-describing). -/
theorem verify_hash_self {cfg cfg2 : HasherCfg} {pw salt h : String}
    (hpw : pw ≠ "") (hs : '$' ∉ salt.data)
    (hh : PasswordHasher.hash cfg pw salt = .ok h) :
    PasswordHasher.verify cfg2 pw h = true := by
  unfold PasswordHasher.verify
  rw [if_neg (by push_neg; exact ⟨hpw, hash_ne_empty hpw hh⟩)]
  rw [phcRead_hash hpw hs hh]
  simp

/-- Verification fails on a hash of a different password. -/
theorem verify_hash_other {cfg cfg2 : HasherCfg} {pw pw2 salt h : String}
    (hpw : pw ≠ "") (hne : pw2 ≠ pw) (hs : '$' ∉ salt.data)
    (hh : PasswordHasher.hash cfg pw salt = .ok h) :
    PasswordHasher.verify cfg2 pw2 h = false := by
  unfold PasswordHasher.verify
  by_cases hpw2 : pw2 = ""
  · rw [if_pos (Or.inl hpw2)]
  · rw [if_neg (by push_neg; exact ⟨hpw2, hash_ne_empty hpw hh⟩)]
    rw [phcRead_hash hpw hs hh]
    simp only [decide_eq_false_iff_not]
    intro hdig
    exact hne (String.ext (argonDigest_inj hdig.symm))

/-! ## Claims C3, C4, C7: the password hasher -/

/-- C3: for every non-empty password P (and fresh delimiter-free salts, two
distinct draws modelling the two random salts), `verify(P, hash(P))` is
true; the two hash calls return two different strings and both verify P;
and for every P, `verify(P, hash(P ++ "x"))` is false. -/
theorem C3_hash_verify_salted (cfg : HasherCfg) (pw pw2 salt1 salt2 h1 h2 hx : String)
    (hpw : pw ≠ "") (hs1 : '$' ∉ salt1.data) (hs2 : '$' ∉ salt2.data)
    (hsd : salt1 ≠ salt2)
    (hh1 : PasswordHasher.hash cfg pw salt1 = .ok h1)
    (hh2 : PasswordHasher.hash cfg pw salt2 = .ok h2)
    (hhx : PasswordHasher.hash cfg (pw2 ++ "x") salt1 = .ok hx) :
    PasswordHasher.verify cfg pw h1 = true ∧
      PasswordHasher.verify cfg pw h2 = true ∧
        h1 ≠ h2 ∧
          PasswordHasher.verify cfg pw2 hx = false := by
  have hx_ne : pw2 ++ "x" ≠ "" := by
    intro e
    have := congrArg String.data e
    rw [String.data_append] at this
    simp at this
  refine ⟨verify_hash_self hpw hs1 hh1, verify_hash_self hpw hs2 hh2, ?_, ?_⟩
  · intro e
    have r1 := phcRead_hash hpw hs1 hh1
    have r2 := phcRead_hash hpw hs2 hh2
    rw [e] at r1
    rw [r2] at r1
    injection r1 with r1
    have : salt2.data = salt1.data := congrArg PhcHash.salt r1
    exact hsd (String.ext this.symm)
  · refine verify_hash_other hx_ne ?_ hs1 hhx
    intro e
    have := congrArg String.data e
    rw [String.data_append] at this
    simp at this

/-- C3 witness: concrete instantiation with a small hasher configuration,
password `"pw"` and salts `"na"`, `"nb"`. -/
theorem C3_hash_verify_salted_witness :
    PasswordHasher.verify (mkPasswordHasher (some 1) (some 1) (some 1) (some 1) (some 1))
        "pw" "$argon2id$v=19$m=1,t=1,p=1$na$pw|na" = true ∧
      PasswordHasher.verify (mkPasswordHasher (some 1) (some 1) (some 1) (some 1) (some 1))
          "pw" "$argon2id$v=19$m=1,t=1,p=1$nb$pw|nb" = true ∧
        ("$argon2id$v=19$m=1,t=1,p=1$na$pw|na" : String) ≠
            "$argon2id$v=19$m=1,t=1,p=1$nb$pw|nb" ∧
          PasswordHasher.verify (mkPasswordHasher (some 1) (some 1) (some 1) (some 1) (some 1))
              "p" "$argon2id$v=19$m=1,t=1,p=1$na$px|na" = false :=
  C3_hash_verify_salted
    (mkPasswordHasher (some 1) (some 1) (some 1) (some 1) (some 1))
    "pw" "p" "na" "nb"
    "$argon2id$v=19$m=1,t=1,p=1$na$pw|na"
    "$argon2id$v=19$m=1,t=1,p=1$nb$pw|nb"
    "$argon2id$v=19$m=1,t=1,p=1$na$px|na"
    (by decide) (by decide) (by decide) (by decide)
    (by decide) (by decide) (by decide)

/-- C4: `verify` is a total boolean function (the embedding returns `Bool`
on every input — the `try/except` absorbs context failures): false for an
empty password, an empty hash and a malformed hash string, and true exactly
when the password matches the hash the string describes. -/
theorem C4_verify_never_raises (cfg : HasherCfg) (pw h : String) :
    PasswordHasher.verify cfg pw "" = false ∧
      PasswordHasher.verify cfg "" h = false ∧
        (phcRead h.data = none → PasswordHasher.verify cfg pw h = false) ∧
          (PasswordHasher.verify cfg pw h = true ↔
            pw ≠ "" ∧ h ≠ "" ∧ ∃ ph, phcRead h.data = some ph ∧
              ph.digest = argonDigest pw.data ph.salt) := by
  refine ⟨?_, ?_, ?_, ?_⟩
  · unfold PasswordHasher.verify
    rw [if_pos (Or.inr rfl)]
  · unfold PasswordHasher.verify
    rw [if_pos (Or.inl rfl)]
  · intro hnone
    unfold PasswordHasher.verify
    by_cases he : pw = "" ∨ h = ""
    · rw [if_pos he]
    · rw [if_neg he, hnone]
  · unfold PasswordHasher.verify
    by_cases he : pw = "" ∨ h = ""
    · rw [if_pos he]
      constructor
      · intro hf
        exact absurd hf (by decide)
      · rintro ⟨hpw, hh, -⟩
        rcases he with e | e
        · exact absurd e hpw
        · exact absurd e hh
    · rw [if_neg he]
      push_neg at he
      cases hr : phcRead h.data with
      | none =>
        constructor
        · intro hf
          simp at hf
        · rintro ⟨-, -, ph, hps, -⟩
          exact Option.noConfusion hps
      | some ph =>
        constructor
        · intro hd
          exact ⟨he.1, he.2, ph, rfl, of_decide_eq_true hd⟩
        · rintro ⟨-, -, ph2, hps, hd⟩
          injection hps with e
          subst e
          exact decide_eq_true hd

/-- C4 witness: concrete evaluations through the theorem. -/
theorem C4_verify_never_raises_witness :
    PasswordHasher.verify default_hasher "pw" "" = false ∧
      PasswordHasher.verify default_hasher "" "zzz" = false ∧
        PasswordHasher.verify default_hasher "pw" "zzz" = false ∧
          PasswordHasher.verify default_hasher "pw"
              "$argon2id$v=19$m=102400,t=2,p=8$salt$pw|salt" = true :=
  ⟨(C4_verify_never_raises default_hasher "pw" "zzz").1,
    (C4_verify_never_raises default_hasher "pw" "zzz").2.1,
    (C4_verify_never_raises default_hasher "pw" "zzz").2.2.1 (by decide),
    (C4_verify_never_raises default_hasher "pw"
        "$argon2id$v=19$m=102400,t=2,p=8$salt$pw|salt").2.2.2.mpr
      ⟨by decide, by decide,
        ⟨⟨⟨2, 102400, 8⟩, "salt".data, "pw|salt".data⟩, by decide, by decide⟩⟩⟩

/-- C7: `needs_update` is true on a hash produced with pointwise weaker
(some strictly lower) cost parameters than the current configuration, false
on one produced with equal-or-stronger parameters, and true on an
unrecognized format. -/
theorem C7_needs_update_policy (cur old : HasherCfg) (pw salt h raw : String)
    (hpw : pw ≠ "") (hs : '$' ∉ salt.data)
    (hh : PasswordHasher.hash old pw salt = .ok h) :
    (old.time_cost ≤ cur.time_cost ∧ old.memory_cost ≤ cur.memory_cost ∧
      old.parallelism ≤ cur.parallelism ∧
        (old.time_cost < cur.time_cost ∨ old.memory_cost < cur.memory_cost ∨
          old.parallelism < cur.parallelism) →
      PasswordHasher.needs_update cur h = true) ∧
      (cur.time_cost ≤ old.time_cost ∧ cur.memory_cost ≤ old.memory_cost ∧
        cur.parallelism ≤ old.parallelism →
        PasswordHasher.needs_update cur h = false) ∧
        (phcRead raw.data = none → PasswordHasher.needs_update cur raw = true) := by
  have hread := phcRead_hash hpw hs hh
  refine ⟨?_, ?_, ?_⟩
  · rintro ⟨-, -, -, hlt⟩
    unfold PasswordHasher.needs_update ctxNeedsUpdate
    rw [hread]
    simp only [HasherCfg.params, Bool.or_eq_true, decide_eq_true_eq]
    omega
  · rintro ⟨h1, h2, h3⟩
    unfold PasswordHasher.needs_update ctxNeedsUpdate
    rw [hread]
    simp only [HasherCfg.params, Bool.or_eq_false_iff, decide_eq_false_iff_not]
    omega
  · intro hnone
    unfold PasswordHasher.needs_update ctxNeedsUpdate
    rw [hnone]

/-- C7 witness: current configuration (t=2, m=3, p=4); a weaker hash
(t=1) needs an update, an equal one does not, garbage does. -/
theorem C7_needs_update_policy_witness :
    PasswordHasher.needs_update (mkPasswordHasher (some 2) (some 3) (some 4) (some 1) (some 1))
        "$argon2id$v=19$m=3,t=1,p=4$na$pw|na" = true ∧
      PasswordHasher.needs_update (mkPasswordHasher (some 2) (some 3) (some 4) (some 1) (some 1))
          "$argon2id$v=19$m=3,t=2,p=4$na$pw|na" = false ∧
        PasswordHasher.needs_update (mkPasswordHasher (some 2) (some 3) (some 4) (some 1) (some 1))
            "zzz" = true :=
  ⟨(C7_needs_update_policy
      (mkPasswordHasher (some 2) (some 3) (some 4) (some 1) (some 1))
      (mkPasswordHasher (some 1) (some 3) (some 4) (some 1) (some 1))
      "pw" "na" "$argon2id$v=19$m=3,t=1,p=4$na$pw|na" "zzz"
      (by decide) (by decide) (by decide)).1 (by decide),
    (C7_needs_update_policy
      (mkPasswordHasher (some 2) (some 3) (some 4) (some 1) (some 1))
      (mkPasswordHasher (some 2) (some 3) (some 4) (some 1) (some 1))
      "pw" "na" "$argon2id$v=19$m=3,t=2,p=4$na$pw|na" "zzz"
      (by decide) (by decide) (by decide)).2.1 (by decide),
    (C7_needs_update_policy
      (mkPasswordHasher (some 2) (some 3) (some 4) (some 1) (some 1))
      (mkPasswordHasher (some 1) (some 3) (some 4) (some 1) (some 1))
      "pw" "na" "$argon2id$v=19$m=3,t=1,p=4$na$pw|na" "zzz"
      (by decide) (by decide) (by decide)).2.2 (by decide)⟩

/-! ## Lemmas: session lookup -/

/-- The active-session filter rejects every row whose token differs. -/
theorem filter_active_nil {db : List Session} {tok : String} {now : Nat}
    (h : ∀ s ∈ db, s.token ≠ tok) :
    db.filter (fun s => s.token == tok &&
      decide (s.expires_at > now) && s.revoked_at.isNone) = [] := by
  refine List.filter_eq_nil_iff.mpr (fun s hs hb => ?_)
  simp only [Bool.and_eq_true, beq_iff_eq] at hb
  exact h s hs hb.1.1

/-- `get_active_session_by_token` on a table extended with one fresh-token
row returns that row exactly when it passes the active filter. -/
theorem get_active_appended (db : List Session) (s : Session) (now : Nat)
    (tok : String) (hfresh : ∀ x ∈ db, x.token ≠ tok) :
    SessionRepository.get_active_session_by_token (db ++ [s]) now tok =
      .ok (if s.token == tok && decide (s.expires_at > now) &&
          s.revoked_at.isNone then some s else none) := by
  unfold SessionRepository.get_active_session_by_token
  rw [List.filter_append, filter_active_nil hfresh, List.nil_append]
  by_cases hp : (s.token == tok && decide (s.expires_at > now) &&
      s.revoked_at.isNone) = true
  · rw [List.filter_singleton, hp, cond_true, if_pos rfl]
    rfl
  · have hf := Bool.eq_false_iff.mpr hp
    rw [List.filter_singleton, hf, cond_false, if_neg (by decide)]
    rfl

/-- `validate_session` on a token that matches no row returns `None`
without raising. -/
theorem validate_none_of_fresh {db : List Session} {tok : String}
    (t1 t2 : Nat) (h : ∀ s ∈ db, s.token ≠ tok) :
    SessionService.validate_session db t1 t2 tok = .ok none := by
  unfold SessionService.validate_session SessionService.get_active_session
    SessionRepository.get_active_session_by_token
  rw [filter_active_nil h]
  rfl

/-- Revoking by a token that touches no row of `db` leaves `db` as it is. -/
theorem map_revoke_untouched {db : List Session} {tok : String} (tr : Nat)
    (h : ∀ s ∈ db, s.token ≠ tok) :
    db.map (fun s => if s.token == tok then s.revoke tr else s) = db := by
  induction db with
  | nil => rfl
  | cons s ds ih =>
    have h1 : s.token ≠ tok := h s (List.mem_cons_self s ds)
    have h2 : ∀ x ∈ ds, x.token ≠ tok := fun x hx =>
      h x (List.mem_cons_of_mem s hx)
    simp only [List.map_cons]
    rw [if_neg (by simp [h1]), ih h2]

/-- Core of the session lifecycle, for an arbitrary fresh unrevoked row
appended to the table: immediate validation returns the row (valid), a
revocation returns `true` and rewrites only that row, and validation then
returns `None` at every later clock read. -/
theorem session_lifecycle_core (db : List Session) (tq tc tr : Nat)
    (snew : Session) (hrev : snew.revoked_at = none)
    (hfresh : ∀ s ∈ db, s.token ≠ snew.token)
    (hq : tq < snew.expires_at) (hc : tc ≤ snew.expires_at) :
    SessionService.validate_session (db ++ [snew]) tq tc snew.token =
        .ok (some snew) ∧
      snew.is_valid tc = true ∧
        SessionService.revoke_session (db ++ [snew]) tr snew.token =
            .ok (db ++ [snew.revoke tr], true) ∧
          ∀ u1 u2, SessionService.validate_session (db ++ [snew.revoke tr])
              u1 u2 snew.token = .ok none := by
  have hval : snew.is_valid tc = true := by
    unfold Session.is_valid Session.is_expired Session.is_revoked
    rw [hrev]
    simp
    omega
  refine ⟨?_, hval, ?_, ?_⟩
  · unfold SessionService.validate_session SessionService.get_active_session
    rw [get_active_appended db snew tq snew.token hfresh]
    rw [if_pos (by simp [hrev]; omega)]
    simp [hval]
  · unfold SessionService.revoke_session SessionRepository.revoke_session
      SessionRepository.get_by_token
    rw [List.filter_append,
      List.filter_eq_nil_iff.mpr
        (fun s hs hb => hfresh s hs (by simpa using hb)),
      List.nil_append, List.filter_cons_of_pos (by simp), List.filter_nil]
    show Except.ok ((db ++ [snew]).map _, true) = _
    rw [List.map_append, map_revoke_untouched tr hfresh]
    simp
  · intro u1 u2
    unfold SessionService.validate_session SessionService.get_active_session
    rw [get_active_appended db (snew.revoke tr) u1 snew.token hfresh]
    rw [if_neg (by simp [Session.revoke])]

/-- Validation of an appended row fails once the clock has reached its
expiry. -/
theorem validate_appended_expired (db : List Session) (snew : Session)
    (t1 t2 : Nat) (hfresh : ∀ s ∈ db, s.token ≠ snew.token)
    (hexp : snew.expires_at ≤ t1) :
    SessionService.validate_session (db ++ [snew]) t1 t2 snew.token =
      .ok none := by
  unfold SessionService.validate_session SessionService.get_active_session
  rw [get_active_appended db snew t1 snew.token hfresh]
  rw [if_neg (by simp; omega)]

/-! ## Claims C1, C8: session lifecycle -/

/-- C1: creating a session and validating its token right away yields that
session with `is_valid = true` (at any clock reads before the expiry);
after `revoke_session` returns `true`, validating the token yields `None`;
and validating a token that matches no session yields `None` without
raising. -/
theorem C1_session_lifecycle
    (db : List Session) (t0 tq tc tr : Nat) (sid : Nat) (user : User)
    (tok : String) (eh : Nat) (ip ua : Option String)
    (hfresh : ∀ s ∈ db, s.token ≠ tok)
    (hq : tq < t0 + eh * 3600) (hc : tc ≤ t0 + eh * 3600) :
    SessionService.validate_session
        (SessionService.create_session db t0 sid user tok eh ip ua).1 tq tc tok
      = .ok (some (SessionService.create_session db t0 sid user tok eh ip ua).2) ∧
      (SessionService.create_session db t0 sid user tok eh ip ua).2.is_valid tc
          = true ∧
        SessionService.revoke_session
            (SessionService.create_session db t0 sid user tok eh ip ua).1 tr tok
          = .ok (db ++
              [(SessionService.create_session db t0 sid user tok eh ip ua).2.revoke
                tr], true) ∧
          (∀ u1 u2,
            SessionService.validate_session
                (db ++
                  [(SessionService.create_session db t0 sid user tok eh
                      ip ua).2.revoke tr]) u1 u2 tok = .ok none) ∧
            (∀ tok2 u1 u2, (∀ s ∈ db, s.token ≠ tok2) →
              SessionService.validate_session db u1 u2 tok2 = .ok none) := by
  obtain ⟨p1, p2, p3, p4⟩ :=
    session_lifecycle_core db tq tc tr
      (SessionService.create_session db t0 sid user tok eh ip ua).2
      rfl hfresh hq hc
  exact ⟨p1, p2, p3, p4, fun tok2 u1 u2 hf2 => validate_none_of_fresh u1 u2 hf2⟩

/-- C8: a session created with `expires_hours = 0` expires at its creation
instant: `is_expired` is true at every strictly later clock read, and
validation of its token fails at every clock read from the creation instant
on. -/
theorem C8_zero_hours_expired
    (db : List Session) (t0 sid : Nat) (user : User) (tok : String)
    (ip ua : Option String) (hfresh : ∀ s ∈ db, s.token ≠ tok) :
    (SessionService.create_session db t0 sid user tok 0 ip ua).2.expires_at
        = t0 ∧
      (∀ t, t0 < t →
        (SessionService.create_session db t0 sid user tok 0 ip ua).2.is_expired
            t = true) ∧
        (∀ t1 t2, t0 ≤ t1 →
          SessionService.validate_session
              (SessionService.create_session db t0 sid user tok 0 ip ua).1
              t1 t2 tok = .ok none) := by
  refine ⟨rfl, fun t ht => decide_eq_true ht, fun t1 t2 ht => ?_⟩
  exact validate_appended_expired db _ t1 t2 hfresh ht

/-- C1 witness: one pre-existing session, a fresh token `"tok"`, creation
at time 100, validation at clock reads 101/102. -/
theorem C1_session_lifecycle_witness :
    (∀ s ∈ ([⟨1, 7, "other", 5000, none, none, none, 10, 10⟩] : List Session),
      s.token ≠ "tok") ∧
      SessionService.validate_session
          (SessionService.create_session
              [⟨1, 7, "other", 5000, none, none, none, 10, 10⟩] 100 2
              ⟨7, "a@b", none, "h", true, false, none, none, 0, 0, none⟩
              "tok" 24 none none).1 101 102 "tok" =
        .ok (some ⟨2, 7, "tok", 86500, none, none, none, 100, 100⟩) ∧
        SessionService.revoke_session
            (SessionService.create_session
                [⟨1, 7, "other", 5000, none, none, none, 10, 10⟩] 100 2
                ⟨7, "a@b", none, "h", true, false, none, none, 0, 0, none⟩
                "tok" 24 none none).1 103 "tok" =
          .ok ([⟨1, 7, "other", 5000, none, none, none, 10, 10⟩,
            ⟨2, 7, "tok", 86500, some 103, none, none, 100, 100⟩], true) :=
  ⟨by decide,
    (C1_session_lifecycle
        [⟨1, 7, "other", 5000, none, none, none, 10, 10⟩] 100 101 102 103 2
        ⟨7, "a@b", none, "h", true, false, none, none, 0, 0, none⟩
        "tok" 24 none none (by decide) (by decide) (by decide)).1,
    (C1_session_lifecycle
        [⟨1, 7, "other", 5000, none, none, none, 10, 10⟩] 100 101 102 103 2
        ⟨7, "a@b", none, "h", true, false, none, none, 0, 0, none⟩
        "tok" 24 none none (by decide) (by decide) (by decide)).2.2.1⟩

/-- C8 witness: creation at time 100 with `expires_hours = 0`. -/
theorem C8_zero_hours_expired_witness :
    (SessionService.create_session ([] : List Session) 100 2
        ⟨7, "a@b", none, "h", true, false, none, none, 0, 0, none⟩
        "tok" 0 none none).2.expires_at = 100 ∧
      (SessionService.create_session ([] : List Session) 100 2
          ⟨7, "a@b", none, "h", true, false, none, none, 0, 0, none⟩
          "tok" 0 none none).2.is_expired 101 = true ∧
        SessionService.validate_session
            (SessionService.create_session ([] : List Session) 100 2
                ⟨7, "a@b", none, "h", true, false, none, none, 0, 0, none⟩
                "tok" 0 none none).1 100 100 "tok" = .ok none :=
  ⟨(C8_zero_hours_expired [] 100 2
      ⟨7, "a@b", none, "h", true, false, none, none, 0, 0, none⟩
      "tok" none none (by decide)).1,
    (C8_zero_hours_expired [] 100 2
        ⟨7, "a@b", none, "h", true, false, none, none, 0, 0, none⟩
        "tok" none none (by decide)).2.1 101 (by decide),
    (C8_zero_hours_expired [] 100 2
        ⟨7, "a@b", none, "h", true, false, none, none, 0, 0, none⟩
        "tok" none none (by decide)).2.2 100 100 (by decide)⟩

/-! ## Claim C6: cleanup of expired and revoked sessions -/

/-- C6: `cleanup_expired_sessions` keeps a session exactly when it is
neither expired nor revoked at cleanup time (active sessions are untouched,
in their original order), and returns the number of deleted rows. -/
theorem C6_cleanup_exact (db : List Session) (now : Nat) :
    (SessionService.cleanup_expired_sessions db now).2 =
        db.countP (fun s => s.is_expired now || s.is_revoked) ∧
      (∀ s, s ∈ (SessionService.cleanup_expired_sessions db now).1 ↔
        s ∈ db ∧ s.is_expired now = false ∧ s.is_revoked = false) ∧
        (∀ s ∈ db, s.is_valid now = true →
          s ∈ (SessionService.cleanup_expired_sessions db now).1) := by
  unfold SessionService.cleanup_expired_sessions
    SessionRepository.cleanup_expired_sessions
  refine ⟨(List.countP_eq_length_filter _ _).symm, ?_, ?_⟩
  · intro s
    simp only [List.mem_filter, Bool.not_eq_true', Bool.or_eq_false_iff,
      and_assoc]
    exact Iff.rfl
  · intro s hs hv
    unfold Session.is_valid Session.is_expired Session.is_revoked at hv
    simp only [Bool.and_eq_true, Bool.not_eq_true'] at hv
    simp only [List.mem_filter]
    refine ⟨hs, ?_⟩
    simp only [Bool.not_eq_true', Bool.or_eq_false_iff]
    refine ⟨?_, hv.2⟩
    have := hv.1
    simpa [gt_iff_lt] using this

/-- C6 witness: three sessions (active, expired, revoked) at cleanup time
100 — the count is 2 and only the active one survives. -/
theorem C6_cleanup_exact_witness :
    (SessionService.cleanup_expired_sessions
        [⟨1, 7, "a", 200, none, none, none, 1, 1⟩,
          ⟨2, 7, "b", 50, none, none, none, 2, 2⟩,
          ⟨3, 7, "c", 200, some 60, none, none, 3, 3⟩] 100).2 =
      List.countP (fun s : Session => s.is_expired 100 || s.is_revoked)
        ([⟨1, 7, "a", 200, none, none, none, 1, 1⟩,
          ⟨2, 7, "b", 50, none, none, none, 2, 2⟩,
          ⟨3, 7, "c", 200, some 60, none, none, 3, 3⟩] : List Session) ∧
      (⟨1, 7, "a", 200, none, none, none, 1, 1⟩ : Session) ∈
        (SessionService.cleanup_expired_sessions
          [⟨1, 7, "a", 200, none, none, none, 1, 1⟩,
            ⟨2, 7, "b", 50, none, none, none, 2, 2⟩,
            ⟨3, 7, "c", 200, some 60, none, none, 3, 3⟩] 100).1 ∧
      SessionService.cleanup_expired_sessions
          [⟨1, 7, "a", 200, none, none, none, 1, 1⟩,
            ⟨2, 7, "b", 50, none, none, none, 2, 2⟩,
            ⟨3, 7, "c", 200, some 60, none, none, 3, 3⟩] 100 =
        ([⟨1, 7, "a", 200, none, none, none, 1, 1⟩], 2) :=
  ⟨(C6_cleanup_exact
      [⟨1, 7, "a", 200, none, none, none, 1, 1⟩,
        ⟨2, 7, "b", 50, none, none, none, 2, 2⟩,
        ⟨3, 7, "c", 200, some 60, none, none, 3, 3⟩] 100).1,
    (C6_cleanup_exact
        [⟨1, 7, "a", 200, none, none, none, 1, 1⟩,
          ⟨2, 7, "b", 50, none, none, none, 2, 2⟩,
          ⟨3, 7, "c", 200, some 60, none, none, 3, 3⟩] 100).2.2
      ⟨1, 7, "a", 200, none, none, none, 1, 1⟩ (by decide) (by decide),
    by decide⟩

/-! ## Claims C2, C10: authentication -/

/-- C2: `authenticate` returns the same `None` value when the user is
absent, when the password does not verify against the stored hash, and
when the account is inactive (three indistinguishable failure outcomes);
with a present, verified and active user it returns that user. -/
theorem C2_authenticate_uniform (users : List User) (email pw : String)
    (u : User) :
    (users.filter (fun x => x.email == email) = [] →
      UserService.authenticate users email pw = .ok none) ∧
      (users.filter (fun x => x.email == email) = [u] →
        verify_password pw u.hashed_password = false →
        UserService.authenticate users email pw = .ok none) ∧
        (users.filter (fun x => x.email == email) = [u] →
          verify_password pw u.hashed_password = true → u.is_active = false →
          UserService.authenticate users email pw = .ok none) ∧
          (users.filter (fun x => x.email == email) = [u] →
            verify_password pw u.hashed_password = true → u.is_active = true →
            UserService.authenticate users email pw = .ok (some u)) := by
  unfold UserService.authenticate UserRepository.get_by_email
  refine ⟨?_, ?_, ?_, ?_⟩
  · intro h
    rw [h]
    rfl
  · intro h hv
    rw [h]
    simp [scalarOneOrNone, hv]
  · intro h hv ha
    rw [h]
    simp [scalarOneOrNone, hv, ha]
  · intro h hv ha
    rw [h]
    simp [scalarOneOrNone, hv, ha]

/-- C2 witness: one stored user with a known-good hash for password
`"pw"`; absent email, wrong password and inactive account all yield the
same `.ok none`, the good case yields the user. -/
theorem C2_authenticate_uniform_witness :
    UserService.authenticate
        [⟨1, "a@b", none, "$argon2id$v=19$m=102400,t=2,p=8$salt$pw|salt",
          true, false, none, none, 0, 0, none⟩] "absent@x" "pw" = .ok none ∧
      UserService.authenticate
          [⟨1, "a@b", none, "$argon2id$v=19$m=102400,t=2,p=8$salt$pw|salt",
            true, false, none, none, 0, 0, none⟩] "a@b" "wrong" = .ok none ∧
        UserService.authenticate
            [⟨1, "a@b", none, "$argon2id$v=19$m=102400,t=2,p=8$salt$pw|salt",
              false, false, none, none, 0, 0, none⟩] "a@b" "pw" = .ok none ∧
          UserService.authenticate
              [⟨1, "a@b", none, "$argon2id$v=19$m=102400,t=2,p=8$salt$pw|salt",
                true, false, none, none, 0, 0, none⟩] "a@b" "pw" =
            .ok (some ⟨1, "a@b", none,
              "$argon2id$v=19$m=102400,t=2,p=8$salt$pw|salt",
              true, false, none, none, 0, 0, none⟩) :=
  ⟨(C2_authenticate_uniform
      [⟨1, "a@b", none, "$argon2id$v=19$m=102400,t=2,p=8$salt$pw|salt",
        true, false, none, none, 0, 0, none⟩] "absent@x" "pw"
      ⟨1, "a@b", none, "$argon2id$v=19$m=102400,t=2,p=8$salt$pw|salt",
        true, false, none, none, 0, 0, none⟩).1 (by decide),
    (C2_authenticate_uniform
        [⟨1, "a@b", none, "$argon2id$v=19$m=102400,t=2,p=8$salt$pw|salt",
          true, false, none, none, 0, 0, none⟩] "a@b" "wrong"
        ⟨1, "a@b", none, "$argon2id$v=19$m=102400,t=2,p=8$salt$pw|salt",
          true, false, none, none, 0, 0, none⟩).2.1 (by decide) (by decide),
    (C2_authenticate_uniform
        [⟨1, "a@b", none, "$argon2id$v=19$m=102400,t=2,p=8$salt$pw|salt",
          false, false, none, none, 0, 0, none⟩] "a@b" "pw"
        ⟨1, "a@b", none, "$argon2id$v=19$m=102400,t=2,p=8$salt$pw|salt",
          false, false, none, none, 0, 0, none⟩).2.2.1
      (by decide) (by decide) (by decide),
    (C2_authenticate_uniform
        [⟨1, "a@b", none, "$argon2id$v=19$m=102400,t=2,p=8$salt$pw|salt",
          true, false, none, none, 0, 0, none⟩] "a@b" "pw"
        ⟨1, "a@b", none, "$argon2id$v=19$m=102400,t=2,p=8$salt$pw|salt",
          true, false, none, none, 0, 0, none⟩).2.2.2
      (by decide) (by decide) (by decide)⟩

/-- C10: a soft-deleted user (`deleted_at` set) that is still active can
still authenticate — neither the email lookup nor the authenticate checks
filter on `deleted_at`. -/
theorem C10_soft_deleted_authenticates (users : List User) (email pw : String)
    (u : User) (d : Nat)
    (hf : users.filter (fun x => x.email == email) = [u])
    (hdel : u.deleted_at = some d) (hact : u.is_active = true)
    (hv : verify_password pw u.hashed_password = true) :
    UserRepository.get_by_email users email = .ok (some u) ∧
      UserService.authenticate users email pw = .ok (some u) := by
  constructor
  · unfold UserRepository.get_by_email
    rw [hf]
    rfl
  · unfold UserService.authenticate UserRepository.get_by_email
    rw [hf]
    simp [scalarOneOrNone, hv, hact]

/-- C10 witness: the user is soft-deleted (`deleted_at = some 77`) yet
active, and authenticates with the correct password. -/
theorem C10_soft_deleted_authenticates_witness :
    UserRepository.get_by_email
        [⟨1, "a@b", none, "$argon2id$v=19$m=102400,t=2,p=8$salt$pw|salt",
          true, false, none, none, 0, 0, some 77⟩] "a@b" =
      .ok (some ⟨1, "a@b", none,
        "$argon2id$v=19$m=102400,t=2,p=8$salt$pw|salt",
        true, false, none, none, 0, 0, some 77⟩) ∧
      UserService.authenticate
          [⟨1, "a@b", none, "$argon2id$v=19$m=102400,t=2,p=8$salt$pw|salt",
            true, false, none, none, 0, 0, some 77⟩] "a@b" "pw" =
        .ok (some ⟨1, "a@b", none,
          "$argon2id$v=19$m=102400,t=2,p=8$salt$pw|salt",
          true, false, none, none, 0, 0, some 77⟩) :=
  C10_soft_deleted_authenticates
    [⟨1, "a@b", none, "$argon2id$v=19$m=102400,t=2,p=8$salt$pw|salt",
      true, false, none, none, 0, 0, some 77⟩] "a@b" "pw"
    ⟨1, "a@b", none, "$argon2id$v=19$m=102400,t=2,p=8$salt$pw|salt",
      true, false, none, none, 0, 0, some 77⟩ 77
    (by decide) (by decide) (by decide) (by decide)

/-! ## Claim C9: user mutations do not touch sessions -/

/-- C9: `deactivate_user` and `soft_delete_user` rewrite only the matched
user row (`is_active`, respectively `deleted_at`, plus the `updated_at`
stamp); the sessions table is untouched, every other user row survives,
and `validate_session` — which reads only the sessions table — is
unchanged, so every previously valid session still validates. -/
theorem C9_user_mutation_frame (st : AppState) (uid now : Nat)
    (st1 st2 : AppState) (u1 u2 u0 : User)
    (hfind : st.users.find? (fun x => x.id == uid) = some u0)
    (hde : UserService.deactivate_user st uid now = .ok (st1, u1))
    (hsd : UserService.soft_delete_user st uid now = .ok (st2, u2)) :
    st1.sessions = st.sessions ∧
      st2.sessions = st.sessions ∧
        u1 = { u0 with is_active := false, updated_at := now } ∧
          u2 = { u0 with deleted_at := some now, updated_at := now } ∧
            (∀ x ∈ st.users, x.id ≠ uid → x ∈ st1.users ∧ x ∈ st2.users) ∧
              (∀ tok t1 t2,
                SessionService.validate_session st1.sessions t1 t2 tok =
                    SessionService.validate_session st.sessions t1 t2 tok ∧
                  SessionService.validate_session st2.sessions t1 t2 tok =
                    SessionService.validate_session st.sessions t1 t2 tok) := by
  have hid : u0.id = uid := by
    have h := List.find?_some hfind
    simpa using h
  unfold UserService.deactivate_user UserService.get_by_id_or_fail at hde
  unfold UserService.soft_delete_user UserService.get_by_id_or_fail at hsd
  rw [hfind] at hde hsd
  injection hde with hde
  injection hsd with hsd
  injection hde with hde1 hde2
  injection hsd with hsd1 hsd2
  subst hde1
  subst hde2
  subst hsd1
  subst hsd2
  refine ⟨rfl, rfl, rfl, rfl, ?_, fun tok t1 t2 => ⟨rfl, rfl⟩⟩
  intro x hx hxid
  have hmem : ∀ (w : User), w.id = u0.id →
      x ∈ st.users.map (fun y => if y.id == w.id then w else y) := by
    intro w hw
    have hc : (x.id == w.id) = false := by
      rw [hw, hid]
      exact beq_eq_false_iff_ne.mpr hxid
    have hfx : (fun y => if y.id == w.id then w else y) x = x := by
      simp [hc]
    exact hfx ▸ List.mem_map_of_mem _ hx
  exact ⟨hmem _ rfl, hmem _ rfl⟩

/-- C9 witness: two users and one session; deactivating and soft-deleting
user 1 at time 50 leaves user 2 and the session table intact. -/
theorem C9_user_mutation_frame_witness :
    (⟨2, "c@d", none, "h2", true, false, none, none, 0, 0, none⟩ : User) ∈
        (⟨[⟨1, "a@b", none, "h", false, false, none, none, 0, 50, none⟩,
            ⟨2, "c@d", none, "h2", true, false, none, none, 0, 0, none⟩],
          [⟨5, 1, "tok", 1000, none, none, none, 10, 10⟩]⟩ : AppState).users ∧
      SessionService.validate_session
          (⟨[⟨1, "a@b", none, "h", false, false, none, none, 0, 50, none⟩,
              ⟨2, "c@d", none, "h2", true, false, none, none, 0, 0, none⟩],
            [⟨5, 1, "tok", 1000, none, none, none, 10, 10⟩]⟩ : AppState).sessions
          20 20 "tok" =
        SessionService.validate_session
          (⟨[⟨1, "a@b", none, "h", true, false, none, none, 0, 0, none⟩,
              ⟨2, "c@d", none, "h2", true, false, none, none, 0, 0, none⟩],
            [⟨5, 1, "tok", 1000, none, none, none, 10, 10⟩]⟩ : AppState).sessions
          20 20 "tok" :=
  ⟨((C9_user_mutation_frame
      ⟨[⟨1, "a@b", none, "h", true, false, none, none, 0, 0, none⟩,
          ⟨2, "c@d", none, "h2", true, false, none, none, 0, 0, none⟩],
        [⟨5, 1, "tok", 1000, none, none, none, 10, 10⟩]⟩ 1 50
      ⟨[⟨1, "a@b", none, "h", false, false, none, none, 0, 50, none⟩,
          ⟨2, "c@d", none, "h2", true, false, none, none, 0, 0, none⟩],
        [⟨5, 1, "tok", 1000, none, none, none, 10, 10⟩]⟩
      ⟨[⟨1, "a@b", none, "h", true, false, none, none, 0, 50, some 50⟩,
          ⟨2, "c@d", none, "h2", true, false, none, none, 0, 0, none⟩],
        [⟨5, 1, "tok", 1000, none, none, none, 10, 10⟩]⟩
      ⟨1, "a@b", none, "h", false, false, none, none, 0, 50, none⟩
      ⟨1, "a@b", none, "h", true, false, none, none, 0, 50, some 50⟩
      ⟨1, "a@b", none, "h", true, false, none, none, 0, 0, none⟩
      (by decide) (by decide) (by decide)).2.2.2.2.1
      ⟨2, "c@d", none, "h2", true, false, none, none, 0, 0, none⟩
      (by decide) (by decide)).1,
    ((C9_user_mutation_frame
      ⟨[⟨1, "a@b", none, "h", true, false, none, none, 0, 0, none⟩,
          ⟨2, "c@d", none, "h2", true, false, none, none, 0, 0, none⟩],
        [⟨5, 1, "tok", 1000, none, none, none, 10, 10⟩]⟩ 1 50
      ⟨[⟨1, "a@b", none, "h", false, false, none, none, 0, 50, none⟩,
          ⟨2, "c@d", none, "h2", true, false, none, none, 0, 0, none⟩],
        [⟨5, 1, "tok", 1000, none, none, none, 10, 10⟩]⟩
      ⟨[⟨1, "a@b", none, "h", true, false, none, none, 0, 50, some 50⟩,
          ⟨2, "c@d", none, "h2", true, false, none, none, 0, 0, none⟩],
        [⟨5, 1, "tok", 1000, none, none, none, 10, 10⟩]⟩
      ⟨1, "a@b", none, "h", false, false, none, none, 0, 50, none⟩
      ⟨1, "a@b", none, "h", true, false, none, none, 0, 50, some 50⟩
      ⟨1, "a@b", none, "h", true, false, none, none, 0, 0, none⟩
      (by decide) (by decide) (by decide)).2.2.2.2.2 "tok" 20 20).1⟩

/-! ## Claim C5: dynamic field resolution (corrected) -/

/-- C5 counterexample: contrary to the claim, `get_multi` with an
`order_by` name that names no column does not raise — `getattr`'s `None`
default turns it into `ORDER BY` nothing and the page is returned. -/
theorem C5_counterexample_get_multi :
    BaseRepository.get_multi sessionClass
        ([⟨1, 7, "t", 50, none, none, none, 10, 10⟩] : List Session) 0 100
        (some (.name "frobnicate")) =
      .ok [⟨1, 7, "t", 50, none, none, none, 10, 10⟩] := by
  decide

/-- C5 (amended): for a field name that names no class attribute at all,
`get_by_field`, `get_multi_by_field` and `delete_by_field` raise the
configuration `ValueError`, but `get_multi` silently returns the unordered
page; for a name that is a non-column class attribute (a property or
method), the three `by_field` operations raise the same `ValueError`. -/
theorem C5_field_resolution (db : List Session) (name : String)
    (value : Value) (skip limit : Nat) :
    (sessionClass.getattr name = none →
      BaseRepository.get_by_field sessionClass db name value =
          .error (.valueError ("Model does not have a column named " ++ name)) ∧
        BaseRepository.get_multi_by_field sessionClass db name value skip limit
            = .error (.valueError
              ("Model does not have a column named " ++ name)) ∧
          BaseRepository.delete_by_field sessionClass db name value =
              .error (.valueError
                ("Model does not have a column named " ++ name)) ∧
            BaseRepository.get_multi sessionClass db skip limit
                (some (.name name)) = .ok ((db.drop skip).take limit)) ∧
      (sessionClass.getattr name = some .plain →
        BaseRepository.get_by_field sessionClass db name value =
            .error (.valueError
              ("Model does not have a column named " ++ name)) ∧
          BaseRepository.get_multi_by_field sessionClass db name value skip
              limit = .error (.valueError
                ("Model does not have a column named " ++ name)) ∧
            BaseRepository.delete_by_field sessionClass db name value =
              .error (.valueError
                ("Model does not have a column named " ++ name))) := by
  constructor
  · intro h
    refine ⟨?_, ?_, ?_, ?_⟩
    · unfold BaseRepository.get_by_field BaseRepository.get_column
      rw [h]
    · unfold BaseRepository.get_multi_by_field BaseRepository.get_column
      rw [h]
    · unfold BaseRepository.delete_by_field BaseRepository.get_column
      rw [h]
    · unfold BaseRepository.get_multi
      simp only [h]
  · intro h
    refine ⟨?_, ?_, ?_⟩
    · unfold BaseRepository.get_by_field BaseRepository.get_column
      rw [h]
      rfl
    · unfold BaseRepository.get_multi_by_field BaseRepository.get_column
      rw [h]
      rfl
    · unfold BaseRepository.delete_by_field BaseRepository.get_column
      rw [h]
      rfl

/-- C5 witness: `"frobnicate"` names nothing (three raises, silent
`get_multi`); `"is_valid"` is a property, not a column (raise). -/
theorem C5_field_resolution_witness :
    BaseRepository.get_by_field sessionClass ([] : List Session) "frobnicate"
        (.natV 0) =
      .error (.valueError
        ("Model does not have a column named " ++ "frobnicate")) ∧
      BaseRepository.get_multi sessionClass ([] : List Session) 0 100
          (some (.name "frobnicate")) =
        .ok ((([] : List Session).drop 0).take 100) ∧
        BaseRepository.get_by_field sessionClass ([] : List Session) "is_valid"
            (.natV 0) =
          .error (.valueError
            ("Model does not have a column named " ++ "is_valid")) :=
  ⟨((C5_field_resolution [] "frobnicate" (.natV 0) 0 100).1 (by rfl)).1,
    ((C5_field_resolution [] "frobnicate" (.natV 0) 0 100).1 (by rfl)).2.2.2,
    ((C5_field_resolution [] "is_valid" (.natV 0) 0 100).2 (by rfl)).1⟩
